import Mathlib

/-!
Verification of the `moq-dev-rs` interop test driver
(`src/builds/moq-dev-rs/src/main.rs`).

The driver is an async Rust binary.  We embed it shallowly:

* Pure data (the test registry `TESTS`, the skip table `SKIPPED_TESTS`,
  the `Diagnostics` record, the reporter functions `print_diagnostics`
  and `print_failure_diagnostics`, the per-test timeout table in
  `run_test`) is translated directly.
* Every `println!` call becomes one element of a `List Line`; `Line.render`
  gives the exact text printed by the corresponding `println!` format
  string.
* External effects are oracles: an `Env` records whether
  `url::Url::parse` and `ClientConfig::init` succeed, and for each test
  name whether `run_test_inner` completes before the `tokio::time::timeout`
  deadline and, when it does, which `anyhow::Result<Diagnostics>` it
  returns.  `mainRun` is then a deterministic function of the CLI options
  and the oracle, mirroring the control flow of `main` line by line.
* The body of `test_announce_subscribe` is embedded separately as a
  function from an oracle of the external session/announcement events to
  the list of actions it performs (in order) together with the
  `anyhow::Result<Diagnostics>` it returns.
-/

namespace MoqInterop

/-- `const TESTS: &[&str]` (main.rs lines 38-45): the fixed, ordered
scenario registry. -/
def TESTS : List String :=
  ["setup-only",
   "announce-only",
   "publish-namespace-done",
   "subscribe-error",
   "announce-subscribe",
   "subscribe-before-announce"]

/-- `const SKIPPED_TESTS: &[(&str, &str)]` (main.rs lines 50-53):
scenario name paired with its skip reason. -/
def SKIPPED_TESTS : List (String × String) :=
  [("subscribe-error", "moq-lite API requires announcement before subscribe"),
   ("subscribe-before-announce", "moq-lite API requires announcement before subscribe")]

/-- `const TEST_NAMESPACE: &str` (main.rs line 55). -/
def TEST_NAMESPACE : String := "moq-test/interop"

/-- `const TEST_TRACK: &str` (main.rs line 56). -/
def TEST_TRACK : String := "test-track"

/-- `struct Diagnostics` (main.rs lines 135-140): three optional
connection identifiers, all `None` by `Default`. -/
structure Diagnostics where
  connection_id : Option String := none
  publisher_connection_id : Option String := none
  subscriber_connection_id : Option String := none
deriving Repr, DecidableEq

/-- One `println!` call made by the driver.  The constructor records which
format string in main.rs produced the line; `Line.render` recovers the
exact printed text. -/
inductive Line where
  /-- `println!("TAP version 14")` (line 86). -/
  | tapVersion
  /-- `println!("# {}", text)`: the name/version comment (line 87) and
  the relay comment (line 88). -/
  | comment (text : String)
  /-- `println!("1..{}", n)` (line 89). -/
  | plan (n : Nat)
  /-- `println!("ok {} - {}", num, name)` (line 117). -/
  | ok (num : Nat) (name : String)
  /-- `println!("not ok {} - {}", num, name)` (line 122). -/
  | notOk (num : Nat) (name : String)
  /-- `println!("ok {} - {} # SKIP {}", num, name, reason)` (line 106). -/
  | skip (num : Nat) (name : String) (reason : String)
  /-- an indented diagnostics-block line, `println!("  {}", text)`
  (lines 143-154, 158-161). -/
  | diag (text : String)
  /-- `println!("{}", text)`: a bare scenario name in list mode (line 64). -/
  | raw (text : String)
deriving Repr, DecidableEq

/-- The exact text each `println!` writes to stdout. -/
def Line.render : Line → String
  | .tapVersion => "TAP version 14"
  | .comment t => "# " ++ t
  | .plan n => "1.." ++ toString n
  | .ok num name => "ok " ++ toString num ++ " - " ++ name
  | .notOk num name => "not ok " ++ toString num ++ " - " ++ name
  | .skip num name reason =>
      "ok " ++ toString num ++ " - " ++ name ++ " # SKIP " ++ reason
  | .diag t => "  " ++ t
  | .raw t => t

/-- A TAP result line: `ok`, `not ok`, or `ok ... # SKIP ...` — the lines
counted against the `1..N` plan. -/
def isResultLine : Line → Bool
  | .ok _ _ => true
  | .notOk _ _ => true
  | .skip _ _ _ => true
  | _ => false

/-- Character-level embedding of `message.replace('"', "\\\"")`
(main.rs line 160): Rust `str::replace` with a `char` pattern substitutes
every occurrence of that character and leaves every other character
untouched. -/
def escapeChars : List Char → List Char
  | [] => []
  | c :: cs => if c = '"' then '\\' :: '"' :: escapeChars cs else c :: escapeChars cs

/-- The escaped failure message: `message.replace('"', "\\\"")`. -/
def escapeMessage (m : String) : String := ⟨escapeChars m.data⟩

/-- `fn print_diagnostics` (main.rs lines 142-155): the success
diagnostics block.  Each optional connection id contributes its line only
when present. -/
def print_diagnostics (duration_ms : Nat) (d : Diagnostics) : List Line :=
  [Line.diag "---", Line.diag ("duration_ms: " ++ toString duration_ms)]
  ++ (match d.connection_id with
      | some id => [Line.diag ("connection_id: " ++ id)]
      | none => [])
  ++ (match d.publisher_connection_id with
      | some id => [Line.diag ("publisher_connection_id: " ++ id)]
      | none => [])
  ++ (match d.subscriber_connection_id with
      | some id => [Line.diag ("subscriber_connection_id: " ++ id)]
      | none => [])
  ++ [Line.diag "..."]

/-- `fn print_failure_diagnostics` (main.rs lines 157-162): the failure
diagnostics block, with the quote-escaped message. -/
def print_failure_diagnostics (duration_ms : Nat) (message : String) : List Line :=
  [Line.diag "---",
   Line.diag ("duration_ms: " ++ toString duration_ms),
   Line.diag ("message: \"" ++ escapeMessage message ++ "\""),
   Line.diag "..."]

/-- Oracle for one invocation of `run_test_inner` under the
`tokio::time::timeout` supervisor: whether the inner future completes
before the deadline, and when it does, the `anyhow::Result` it yields
(`error` carries the `{:#}`-formatted context chain). -/
structure TestRun where
  completes : Bool
  result : Except String Diagnostics

/-- The per-test timeout table of `run_test` (main.rs lines 169-175), in
seconds; the `match` catch-all is 5 seconds. -/
def timeout_secs (name : String) : Nat :=
  if name = "setup-only" then 2
  else if name = "announce-only" then 2
  else if name = "publish-namespace-done" then 2
  else if name = "announce-subscribe" then 3
  else 5

/-- `fn run_test` (main.rs lines 164-180): race `run_test_inner` against
the deadline.  If the deadline elapses first, `tokio::time::timeout`
returns `Err(Elapsed)` ("deadline has elapsed") which `.context(format!(
"timeout after {}ms", timeout.as_millis()))` wraps; `?` then propagates
the contexted error.  If the inner future completes first its `Result` is
returned unchanged. -/
def run_test (name : String) (r : TestRun) : Except String Diagnostics :=
  if r.completes then r.result
  else
    .error ("timeout after " ++ toString (timeout_secs name * 1000)
      ++ "ms: deadline has elapsed")

/-- Oracle for everything outside the driver's own logic: whether
`url::Url::parse(&cli.relay)` succeeds, whether `client_config.init()`
succeeds, what each `run_test` invocation does, and the measured
wall-clock duration (in ms) of each attempt. -/
structure Env where
  urlOk : Bool
  clientOk : Bool
  runs : String → TestRun
  durationOf : String → Nat

/-- A scenario name is in the skip table (the lookup
`SKIPPED_TESTS.iter().find(|(name, _)| name == test_name)`, line 105). -/
def isSkipped (name : String) : Bool :=
  (SKIPPED_TESTS.find? (fun p => p.1 = name)).isSome

/-- Output of one iteration of the scenario loop: the lines printed, the
per-iteration contribution to `all_passed`, and the names actually
dispatched to `run_test` (empty when the iteration skipped). -/
structure StepOut where
  lines : List Line
  passed : Bool
  executed : List String
deriving Repr, DecidableEq

/-- One iteration of the loop of `main` (main.rs lines 101-126): consult
the skip table; otherwise run the test under its timeout and report. -/
def runOne (env : Env) (num : Nat) (name : String) : StepOut :=
  match SKIPPED_TESTS.find? (fun p => p.1 = name) with
  | some (_, reason) =>
      { lines := [Line.skip num name reason], passed := true, executed := [] }
  | none =>
      let ms := env.durationOf name
      match run_test name (env.runs name) with
      | .ok diag =>
          { lines := Line.ok num name :: print_diagnostics ms diag,
            passed := true, executed := [name] }
      | .error e =>
          { lines := Line.notOk num name :: print_failure_diagnostics ms e,
            passed := false, executed := [name] }

/-- The scenario loop (main.rs lines 101-126), iterating in order with
`num = i + 1`; `all_passed` is the conjunction of the per-iteration
flags. -/
def runLoop (env : Env) : List String → Nat → StepOut
  | [], _ => { lines := [], passed := true, executed := [] }
  | name :: rest, i =>
      let s := runOne env (i + 1) name
      let r := runLoop env rest (i + 1)
      { lines := s.lines ++ r.lines,
        passed := s.passed && r.passed,
        executed := s.executed ++ r.executed }

/-- The CLI options of `struct Cli` (main.rs lines 8-36) that the driver
logic reads. -/
structure Cli where
  relay : String
  test : Option String
  list : Bool
  tls_disable_verify : Bool := false
  verbose : Bool := false

/-- Scenario selection (main.rs lines 75-84): `none` encodes the
`std::process::exit(127)` branch for an unknown name. -/
def selectTests : Option String → Option (List String)
  | some name => if TESTS.contains name then some [name] else none
  | none => some TESTS

/-- The stream preamble (main.rs lines 86-89): version header, two
comments, and the `1..N` plan line. -/
def header (relay : String) (n : Nat) : List Line :=
  [Line.tapVersion,
   Line.comment "moq-dev-rs-client v0.1.0",
   Line.comment ("Relay: " ++ relay),
   Line.plan n]

/-- Observable result of one process invocation: everything printed to
stdout, the process exit code, whether `client_config.init()` was
reached, and which scenarios were dispatched to `run_test`. -/
structure MainOutput where
  stdout : List Line
  exitCode : Nat
  clientInitAttempted : Bool
  executed : List String
deriving Repr, DecidableEq

/-- `async fn main` (main.rs lines 59-133).  In order: the list-only
early return (lines 62-67); scenario selection with `exit(127)` on an
unknown name (lines 75-84); the preamble (lines 86-89); the fallible
`url::Url::parse` (line 91) and `client_config.init()` (line 97), whose
`?` failures end `main` with `Err` — the Rust runtime then exits with
code 1; the scenario loop; and `exit(1)` when `all_passed` is false
(lines 128-130). -/
def mainRun (cli : Cli) (env : Env) : MainOutput :=
  if cli.list then
    { stdout := TESTS.map Line.raw, exitCode := 0,
      clientInitAttempted := false, executed := [] }
  else
    match selectTests cli.test with
    | none =>
        { stdout := [], exitCode := 127,
          clientInitAttempted := false, executed := [] }
    | some tests =>
        let hdr := header cli.relay tests.length
        if env.urlOk = false then
          { stdout := hdr, exitCode := 1,
            clientInitAttempted := false, executed := [] }
        else if env.clientOk = false then
          { stdout := hdr, exitCode := 1,
            clientInitAttempted := true, executed := [] }
        else
          let body := runLoop env tests 0
          { stdout := hdr ++ body.lines,
            exitCode := if body.passed then 0 else 1,
            clientInitAttempted := true,
            executed := body.executed }

/-! ### The `announce-subscribe` scenario body -/

/-- One step performed by `test_announce_subscribe` (main.rs lines
267-336), in program order. -/
inductive Action where
  /-- `broadcast.create_track(Track { name, priority })` (lines 277-280). -/
  | createTrack (name : String) (priority : Nat)
  /-- the publisher `connect` call returning (lines 282-287). -/
  | pubConnect
  /-- `tokio::time::sleep(Duration::from_millis(ms))` (line 290). -/
  | sleepMs (ms : Nat)
  /-- the subscriber `connect` call returning (lines 296-301). -/
  | subConnect
  /-- the `tokio::select!` racing `sub_consumer.announced()` against a
  `waitMs` sleep (lines 304-314). -/
  | raceAnnounce (waitMs : Nat)
  /-- `sub_broadcast.subscribe_track(&Track { name, priority })`
  (lines 317-320). -/
  | subscribeTrack (name : String) (priority : Nat)
  /-- the `tokio::select!` racing `track.closed()` against a `waitMs`
  sleep (lines 323-330). -/
  | raceClosed (waitMs : Nat)
  /-- `pub_session.close(moq_lite::Error::Cancel)` (line 332). -/
  | closePub
  /-- `sub_session.close(moq_lite::Error::Cancel)` (line 333). -/
  | closeSub
deriving Repr, DecidableEq

/-- Which arm of the announcement `tokio::select!` wins, and with what
payload (main.rs lines 304-314). -/
inductive AnnounceEvent where
  /-- the 1500ms sleep completes first. -/
  | waitElapsed
  /-- `sub_consumer.announced()` returns `None`. -/
  | consumerClosed
  /-- `announced()` yields `Some((path, None))`: an unannouncement. -/
  | unannounce (path : String)
  /-- `announced()` yields `Some((path, Some(broadcast)))`. -/
  | announce (path : String)
deriving Repr, DecidableEq

/-- Which arm of the track-closed `tokio::select!` wins (main.rs lines
323-330). -/
inductive TrackEvent where
  /-- the 1000ms sleep completes first: no error observed. -/
  | waitElapsed
  /-- `track.closed()` resolves with `Ok`. -/
  | closedOk
  /-- `track.closed()` resolves with `Err(msg)`. -/
  | closedErr (msg : String)
deriving Repr, DecidableEq

/-- Oracle for the external session capability as seen by
`test_announce_subscribe`: the two `connect` results, the winning arm of
each race, and whether each fire-and-forget `Session::close` fails
internally (`close` returns `()`, so the body never observes this). -/
structure AnnSubEnv where
  pubConnect : Except String Unit
  subConnect : Except String Unit
  announceEvt : AnnounceEvent
  trackEvt : TrackEvent
  pubCloseFails : Bool := false
  subCloseFails : Bool := false

/-- `async fn test_announce_subscribe` (main.rs lines 267-336) as a
function from the event oracle to the ordered list of actions performed
and the returned `anyhow::Result<Diagnostics>`.  Error strings follow the
`{:#}`-formatted context chains: `.context("publisher failed to
connect")`, `.context("subscriber failed to connect")`,
`.context("consumer closed")` (on the `Option` from `announced()`, so
there is no inner error), `bail!("unexpected unannouncement: {}", path)`,
`bail!("timeout waiting for announcement")`, and `.context("track
closed")`.  Early `?`/`bail!` returns skip the two session closes. -/
def test_announce_subscribe (env : AnnSubEnv) :
    List Action × Except String Diagnostics :=
  let t0 := [Action.createTrack TEST_TRACK 0]
  match env.pubConnect with
  | .error e =>
      (t0 ++ [Action.pubConnect], .error ("publisher failed to connect: " ++ e))
  | .ok _ =>
      let t1 := t0 ++ [Action.pubConnect, Action.sleepMs 300]
      match env.subConnect with
      | .error e =>
          (t1 ++ [Action.subConnect],
           .error ("subscriber failed to connect: " ++ e))
      | .ok _ =>
          let t2 := t1 ++ [Action.subConnect, Action.raceAnnounce 1500]
          match env.announceEvt with
          | .waitElapsed => (t2, .error "timeout waiting for announcement")
          | .consumerClosed => (t2, .error "consumer closed")
          | .unannounce path =>
              (t2, .error ("unexpected unannouncement: " ++ path))
          | .announce _ =>
              let t3 := t2 ++ [Action.subscribeTrack TEST_TRACK 0,
                               Action.raceClosed 1000]
              match env.trackEvt with
              | .closedErr e => (t3, .error ("track closed: " ++ e))
              | .closedOk =>
                  (t3 ++ [Action.closePub, Action.closeSub], .ok {})
              | .waitElapsed =>
                  (t3 ++ [Action.closePub, Action.closeSub], .ok {})

end MoqInterop

namespace MoqInterop

/-! ### Concrete fixtures used by witnesses and counterexamples -/

/-- An oracle where every test's orchestration completes successfully. -/
def okRuns : String → TestRun := fun _ => { completes := true, result := .ok {} }

/-- Fully successful external world. -/
def goodEnv : Env :=
  { urlOk := true, clientOk := true, runs := okRuns, durationOf := fun _ => 0 }

/-- External world where `url::Url::parse(&cli.relay)` fails (e.g. the
relay string `"::"` is not a parseable URL). -/
def badUrlEnv : Env :=
  { urlOk := false, clientOk := true, runs := okRuns, durationOf := fun _ => 0 }

/-- External world where `client_config.init()` fails. -/
def badClientEnv : Env :=
  { urlOk := true, clientOk := false, runs := okRuns, durationOf := fun _ => 0 }

/-- External world where the `announce-subscribe` orchestration misses
its deadline and every other scenario completes successfully. -/
def oneFailEnv : Env :=
  { urlOk := true, clientOk := true,
    runs := fun name =>
      if name = "announce-subscribe" then { completes := false, result := .ok {} }
      else { completes := true, result := .ok {} },
    durationOf := fun _ => 0 }

/-- A run of all scenarios with the default relay. -/
def allCli : Cli := { relay := "https://localhost:4443", test := none, list := false }

/-- A run of all scenarios with the unparseable relay string `"::"`. -/
def badCli : Cli := { relay := "::", test := none, list := false }

/-! ### Helper lemmas -/

theorem print_diagnostics_no_result_line (ms : Nat) (d : Diagnostics) :
    (print_diagnostics ms d).countP isResultLine = 0 := by
  obtain ⟨c, p, s⟩ := d
  cases c <;> cases p <;> cases s <;>
    simp [print_diagnostics, List.countP_append, List.countP_cons, isResultLine]

theorem print_failure_diagnostics_no_result_line (ms : Nat) (e : String) :
    (print_failure_diagnostics ms e).countP isResultLine = 0 := by
  simp [print_failure_diagnostics, List.countP_cons, isResultLine]

theorem runOne_count (env : Env) (num : Nat) (name : String) :
    (runOne env num name).lines.countP isResultLine = 1 := by
  unfold runOne
  cases h : SKIPPED_TESTS.find? (fun p => p.1 = name) with
  | some p =>
      obtain ⟨a, b⟩ := p
      simp [List.countP_cons, isResultLine]
  | none =>
      cases hr : run_test name (env.runs name) with
      | ok d =>
          simp [List.countP_cons, isResultLine, print_diagnostics_no_result_line]
      | error e =>
          simp [List.countP_cons, isResultLine, print_failure_diagnostics_no_result_line]

theorem runLoop_count (env : Env) (tests : List String) (i : Nat) :
    (runLoop env tests i).lines.countP isResultLine = tests.length := by
  induction tests generalizing i with
  | nil => simp [runLoop]
  | cons name rest ih =>
      simp [runLoop, List.countP_append, runOne_count, ih]
      omega

theorem header_no_result_line (relay : String) (n : Nat) :
    (header relay n).countP isResultLine = 0 := by
  simp [header, List.countP_cons, isResultLine]

theorem runOne_passed (env : Env) (num : Nat) (name : String) :
    (runOne env num name).passed =
      (isSkipped name || (run_test name (env.runs name)).isOk) := by
  unfold runOne isSkipped
  cases h : SKIPPED_TESTS.find? (fun p => p.1 = name) with
  | some p =>
      obtain ⟨a, b⟩ := p
      simp [h]
  | none =>
      cases hr : run_test name (env.runs name) <;>
        simp [h, hr, Except.isOk, Except.toBool]

theorem bool_or_eq_true_iff (a b : Bool) : (a || b) = true ↔ (a = false → b = true) := by
  cases a <;> cases b <;> simp

theorem runLoop_passed (env : Env) (tests : List String) (i : Nat) :
    (runLoop env tests i).passed = true ↔
      ∀ name ∈ tests, isSkipped name = false →
        (run_test name (env.runs name)).isOk = true := by
  induction tests generalizing i with
  | nil => simp [runLoop]
  | cons name rest ih =>
      simp only [runLoop, Bool.and_eq_true, runOne_passed, ih,
        bool_or_eq_true_iff, List.mem_cons, forall_eq_or_imp]

end MoqInterop

namespace MoqInterop

/-! ### Claims -/

/-- C8: the configured per-scenario timeout is 2 seconds for each
single-session scenario (`setup-only`, `announce-only`,
`publish-namespace-done`) and 3 seconds for the two-party scenario
(`announce-subscribe`). -/
theorem C8_timeout_table :
    timeout_secs "setup-only" = 2 ∧
    timeout_secs "announce-only" = 2 ∧
    timeout_secs "publish-namespace-done" = 2 ∧
    timeout_secs "announce-subscribe" = 3 := by
  decide

/-- C4: for every invocation with a scenario-selector name that is not in
the registry, the process exits with code 127, emits no count line and no
scenario results (stdout is empty), and runs no scenario. -/
theorem C4_unknown_scenario (cli : Cli) (env : Env) (name : String)
    (hl : cli.list = false) (ht : cli.test = some name)
    (hn : TESTS.contains name = false) :
    mainRun cli env =
      { stdout := [], exitCode := 127,
        clientInitAttempted := false, executed := [] } := by
  unfold mainRun
  rw [hl, ht]
  simp at hn
  simp [selectTests, hn]

/-- Witness for C4 at the concrete name `"no-such-test"`. -/
theorem C4_unknown_scenario_witness :
    ({ relay := "https://localhost:4443", test := some "no-such-test",
       list := false : Cli }).list = false ∧
    TESTS.contains "no-such-test" = false ∧
    mainRun { relay := "https://localhost:4443", test := some "no-such-test",
              list := false } goodEnv =
      { stdout := [], exitCode := 127,
        clientInitAttempted := false, executed := [] } :=
  ⟨rfl, by decide,
   C4_unknown_scenario _ goodEnv "no-such-test" rfl rfl (by decide)⟩

/-- C5: for every scenario whose name is present in the skip table, the
scenario body is never executed (`executed` is empty and the step is
independent of the orchestration oracle), a single `ok <n> - <name>
# SKIP <reason>` line with the stored reason and no diagnostics block is
emitted, and the step reports `passed`, so the skip never contributes to
a non-zero exit code. -/
theorem C5_skip_policy (env : Env) (num : Nat) (name : String) (p : String × String)
    (h : SKIPPED_TESTS.find? (fun q => q.1 = name) = some p) :
    runOne env num name =
      { lines := [Line.skip num name p.2], passed := true, executed := [] } ∧
    (Line.skip num name p.2).render =
      "ok " ++ toString num ++ " - " ++ name ++ " # SKIP " ++ p.2 := by
  obtain ⟨a, b⟩ := p
  exact ⟨by simp [runOne, h], rfl⟩

/-- Witness for C5 at the concrete scenario `"subscribe-error"`. -/
theorem C5_skip_policy_witness :
    SKIPPED_TESTS.find? (fun q => q.1 = "subscribe-error") =
      some ("subscribe-error", "moq-lite API requires announcement before subscribe") ∧
    runOne goodEnv 4 "subscribe-error" =
      { lines := [Line.skip 4 "subscribe-error"
          "moq-lite API requires announcement before subscribe"],
        passed := true, executed := [] } :=
  ⟨by decide,
   (C5_skip_policy goodEnv 4 "subscribe-error"
     ("subscribe-error", "moq-lite API requires announcement before subscribe")
     (by decide)).1⟩

/-- C9: when the list-only flag is set, the process prints exactly the
registry's scenario names, one per line, in registry order, and exits
with code 0 before any client initialization or scenario execution is
attempted. -/
theorem C9_list_mode (cli : Cli) (env : Env) (h : cli.list = true) :
    (mainRun cli env).stdout = TESTS.map Line.raw ∧
    (mainRun cli env).stdout.map Line.render = TESTS ∧
    (mainRun cli env).exitCode = 0 ∧
    (mainRun cli env).clientInitAttempted = false ∧
    (mainRun cli env).executed = [] := by
  unfold mainRun
  rw [h]
  exact ⟨rfl, rfl, rfl, rfl, rfl⟩

/-- Witness for C9 at a concrete list-mode invocation. -/
theorem C9_list_mode_witness :
    ({ relay := "https://localhost:4443", test := none, list := true : Cli }).list = true ∧
    (mainRun { relay := "https://localhost:4443", test := none, list := true }
      goodEnv).stdout.map Line.render = TESTS :=
  ⟨rfl,
   (C9_list_mode { relay := "https://localhost:4443", test := none, list := true }
     goodEnv rfl).2.1⟩

end MoqInterop

namespace MoqInterop

/-- C1 counterexample: with the unparseable relay string `"::"` the
invocation passes scenario selection (no list flag, no scenario filter,
so all 6 registry entries are selected) and the plan line `1..6` is
printed, but `url::Url::parse` fails on line 91 of main.rs — after the
plan line — so zero result lines are emitted before the process exits. -/
theorem C1_counterexample :
    badCli.list = false ∧
    selectTests badCli.test = some TESTS ∧
    TESTS.length = 6 ∧
    Line.plan 6 ∈ (mainRun badCli badUrlEnv).stdout ∧
    (mainRun badCli badUrlEnv).stdout.countP isResultLine = 0 := by
  refine ⟨rfl, rfl, rfl, ?_, ?_⟩ <;> decide

/-- C1 (amended): for every invocation that passes scenario selection and
whose relay URL parses and client initialization succeeds, exactly one
result line is emitted per scenario in the selected set, and the count
line `1..N` carries exactly the number of result lines emitted. -/
theorem C1_result_count (cli : Cli) (env : Env) (tests : List String)
    (hl : cli.list = false) (hs : selectTests cli.test = some tests)
    (hu : env.urlOk = true) (hc : env.clientOk = true) :
    (mainRun cli env).stdout.countP isResultLine = tests.length ∧
    Line.plan tests.length ∈ (mainRun cli env).stdout ∧
    ∀ num name, (runOne env num name).lines.countP isResultLine = 1 := by
  unfold mainRun
  rw [hl, hs]
  simp only [Bool.false_eq_true, if_false, hu, hc]
  refine ⟨?_, ?_, fun num name => runOne_count env num name⟩
  · simp [List.countP_append, header_no_result_line, runLoop_count]
  · simp [header]

/-- Witness for C1 at a run of all six scenarios in a fully successful
external world. -/
theorem C1_result_count_witness :
    allCli.list = false ∧ selectTests allCli.test = some TESTS ∧
    goodEnv.urlOk = true ∧ goodEnv.clientOk = true ∧
    ((mainRun allCli goodEnv).stdout.countP isResultLine = TESTS.length ∧
     Line.plan TESTS.length ∈ (mainRun allCli goodEnv).stdout ∧
     ∀ num name, (runOne goodEnv num name).lines.countP isResultLine = 1) :=
  ⟨rfl, rfl, rfl, rfl, C1_result_count allCli goodEnv TESTS rfl rfl rfl rfl⟩

/-- C2 counterexample: when `client_config.init()` fails (line 97 of
main.rs), no scenario runs — so every non-skipped scenario outcome of the
run is vacuously `Passed` — yet the process exits with code 1, refuting
the claimed equivalence as stated. -/
theorem C2_counterexample :
    badCli.list = false ∧
    selectTests badCli.test = some TESTS ∧
    (mainRun badCli badClientEnv).executed = [] ∧
    ¬ ((mainRun badCli badClientEnv).exitCode = 0 ↔
        ∀ name ∈ (mainRun badCli badClientEnv).executed,
          (run_test name (badClientEnv.runs name)).isOk = true) := by
  refine ⟨rfl, rfl, by decide, ?_⟩
  intro h
  have : (mainRun badCli badClientEnv).exitCode = 0 := h.mpr (by decide)
  simp [mainRun, badCli, badClientEnv, selectTests] at this

/-- C2 (amended): provided the relay URL parses and client
initialization succeeds, the process exit code is 0 iff every non-skipped
scenario's orchestration result is `Ok`; any single failed scenario
forces exit code 1 regardless of the other scenarios. -/
theorem C2_exit_code (cli : Cli) (env : Env) (tests : List String)
    (hl : cli.list = false) (hs : selectTests cli.test = some tests)
    (hu : env.urlOk = true) (hc : env.clientOk = true) :
    ((mainRun cli env).exitCode = 0 ↔
      ∀ name ∈ tests, isSkipped name = false →
        (run_test name (env.runs name)).isOk = true) ∧
    (∀ name ∈ tests, isSkipped name = false →
      (run_test name (env.runs name)).isOk = false →
      (mainRun cli env).exitCode = 1) := by
  unfold mainRun
  rw [hl, hs]
  simp only [Bool.false_eq_true, if_false, hu, hc]
  constructor
  · by_cases hp : (runLoop env tests 0).passed = true
    · simp only [hp, if_true]
      simpa using (runLoop_passed env tests 0).mp hp
    · simp only [hp, if_false]
      constructor
      · intro h; exact absurd h (by simp)
      · intro h
        exact absurd ((runLoop_passed env tests 0).mpr h) hp
  · intro name hmem hns hfail
    by_cases hp : (runLoop env tests 0).passed = true
    · have := (runLoop_passed env tests 0).mp hp name hmem hns
      rw [this] at hfail
      exact absurd hfail (by simp)
    · simp [hp]

/-- Witness for C2 at a run where `announce-subscribe` times out and
every other executed scenario passes: the exit code is 1. -/
theorem C2_exit_code_witness :
    allCli.list = false ∧ selectTests allCli.test = some TESTS ∧
    oneFailEnv.urlOk = true ∧ oneFailEnv.clientOk = true ∧
    "announce-subscribe" ∈ TESTS ∧ isSkipped "announce-subscribe" = false ∧
    (run_test "announce-subscribe" (oneFailEnv.runs "announce-subscribe")).isOk = false ∧
    (mainRun allCli oneFailEnv).exitCode = 1 :=
  ⟨rfl, rfl, rfl, rfl, by decide, by decide, by decide,
   (C2_exit_code allCli oneFailEnv TESTS rfl rfl rfl rfl).2
     "announce-subscribe" (by decide) (by decide) (by decide)⟩

end MoqInterop

namespace MoqInterop

/-- C3: for every executed scenario, if the orchestration does not
complete within the configured timeout, the outcome is the failure
`timeout after <ms>ms: deadline has elapsed` naming the configured
duration; if the orchestration completes first its `Result` is forwarded
unchanged; and in either case the scenario loop step emits exactly one
result line for the scenario. -/
theorem C3_timeout_supervisor (name : String) (r : TestRun) (env : Env) (num : Nat)
    (_hns : isSkipped name = false) :
    (r.completes = false →
      run_test name r =
        .error ("timeout after " ++ toString (timeout_secs name * 1000)
          ++ "ms: deadline has elapsed")) ∧
    (r.completes = true → run_test name r = r.result) ∧
    (runOne env num name).lines.countP isResultLine = 1 := by
  refine ⟨fun h => ?_, fun h => ?_, runOne_count env num name⟩ <;>
    simp [run_test, h]

/-- Witness for C3: `announce-subscribe` overrunning its 3-second
deadline yields the 3000ms timeout failure. -/
theorem C3_timeout_supervisor_witness :
    isSkipped "announce-subscribe" = false ∧
    (({ completes := false, result := .ok {} } : TestRun).completes = false →
      run_test "announce-subscribe" { completes := false, result := .ok {} } =
        .error ("timeout after " ++ toString (timeout_secs "announce-subscribe" * 1000)
          ++ "ms: deadline has elapsed")) ∧
    (runOne oneFailEnv 5 "announce-subscribe").lines.countP isResultLine = 1 :=
  ⟨by decide,
   (C3_timeout_supervisor "announce-subscribe" { completes := false, result := .ok {} }
     oneFailEnv 5 (by decide)).1,
   (C3_timeout_supervisor "announce-subscribe" { completes := false, result := .ok {} }
     oneFailEnv 5 (by decide)).2.2⟩

/-- C6: in `announce-subscribe`, the subscriber session is opened only
after the publisher's connect has returned and the 300ms grace sleep; the
subscriber then races the next announcement event against a 1500ms wait,
the wait winning yields the failure `timeout waiting for announcement`,
and an announcement carrying no broadcast yields a failure prefixed
`unexpected unannouncement`. -/
theorem C6_announce_race (env : AnnSubEnv) :
    (Action.subConnect ∈ (test_announce_subscribe env).1 →
      List.take 4 (test_announce_subscribe env).1 =
        [Action.createTrack TEST_TRACK 0, Action.pubConnect,
         Action.sleepMs 300, Action.subConnect]) ∧
    (env.pubConnect = .ok () → env.subConnect = .ok () →
      Action.raceAnnounce 1500 ∈ (test_announce_subscribe env).1 ∧
      (env.announceEvt = AnnounceEvent.waitElapsed →
        (test_announce_subscribe env).2 = .error "timeout waiting for announcement") ∧
      (∀ path, env.announceEvt = AnnounceEvent.unannounce path →
        (test_announce_subscribe env).2 =
          .error ("unexpected unannouncement: " ++ path))) := by
  obtain ⟨pc, sc, ae, te, f1, f2⟩ := env
  cases pc with
  | error e => simp [test_announce_subscribe]
  | ok u =>
      cases sc with
      | error e => simp [test_announce_subscribe]
      | ok u' =>
          cases ae <;> cases te <;>
            simp [test_announce_subscribe, TEST_TRACK]

/-- Witness for C6: a world where both connects succeed and the 1500ms
wait wins the announcement race. -/
theorem C6_announce_race_witness :
    Action.subConnect ∈
      (test_announce_subscribe
        { pubConnect := .ok (), subConnect := .ok (),
          announceEvt := AnnounceEvent.waitElapsed,
          trackEvt := TrackEvent.waitElapsed }).1 ∧
    (test_announce_subscribe
        { pubConnect := .ok (), subConnect := .ok (),
          announceEvt := AnnounceEvent.waitElapsed,
          trackEvt := TrackEvent.waitElapsed }).2 =
      .error "timeout waiting for announcement" :=
  ⟨by decide,
   ((C6_announce_race
      { pubConnect := .ok (), subConnect := .ok (),
        announceEvt := AnnounceEvent.waitElapsed,
        trackEvt := TrackEvent.waitElapsed }).2 rfl rfl).2.1 rfl⟩

/-- C7: in `announce-subscribe`, after receiving the announced broadcast
the subscriber subscribes to the track with the same (name, priority)
pair the publisher created, and races the track's closed-signal against a
1000ms wait: the wait elapsing first is success, the closed-signal
reporting an error is the failure `track closed: <e>`; on success the
last two actions are the publisher close followed by the subscriber
close, and the returned result never depends on whether either
fire-and-forget close fails. -/
theorem C7_track_race (env : AnnSubEnv) (path : String)
    (hp : env.pubConnect = .ok ()) (hs : env.subConnect = .ok ())
    (ha : env.announceEvt = AnnounceEvent.announce path) :
    (Action.createTrack TEST_TRACK 0 ∈ (test_announce_subscribe env).1 ∧
     Action.subscribeTrack TEST_TRACK 0 ∈ (test_announce_subscribe env).1 ∧
     Action.raceClosed 1000 ∈ (test_announce_subscribe env).1) ∧
    (env.trackEvt = TrackEvent.waitElapsed →
      (test_announce_subscribe env).2 = .ok {} ∧
      ∃ pre, (test_announce_subscribe env).1 =
        pre ++ [Action.closePub, Action.closeSub]) ∧
    (∀ e, env.trackEvt = TrackEvent.closedErr e →
      (test_announce_subscribe env).2 = .error ("track closed: " ++ e)) ∧
    (∀ b1 b2, (test_announce_subscribe
        { env with pubCloseFails := b1, subCloseFails := b2 }).2 =
      (test_announce_subscribe env).2) := by
  obtain ⟨pc, sc, ae, te, f1, f2⟩ := env
  subst hp hs ha
  cases te with
  | waitElapsed =>
      simp [test_announce_subscribe, TEST_TRACK]
      exact ⟨[Action.createTrack "test-track" 0, Action.pubConnect, Action.sleepMs 300,
              Action.subConnect, Action.raceAnnounce 1500,
              Action.subscribeTrack "test-track" 0, Action.raceClosed 1000], rfl⟩
  | closedOk => simp [test_announce_subscribe, TEST_TRACK]
  | closedErr e => simp [test_announce_subscribe, TEST_TRACK]

/-- Witness for C7: connects succeed, the announcement arrives, and the
1000ms wait wins the closed-signal race, so the scenario passes and both
sessions are closed in publisher-then-subscriber order. -/
theorem C7_track_race_witness :
    (test_announce_subscribe
        { pubConnect := .ok (), subConnect := .ok (),
          announceEvt := AnnounceEvent.announce "moq-test/interop",
          trackEvt := TrackEvent.waitElapsed }).2 = .ok {} ∧
    (∃ pre, (test_announce_subscribe
        { pubConnect := .ok (), subConnect := .ok (),
          announceEvt := AnnounceEvent.announce "moq-test/interop",
          trackEvt := TrackEvent.waitElapsed }).1 =
      pre ++ [Action.closePub, Action.closeSub]) :=
  (C7_track_race
    { pubConnect := .ok (), subConnect := .ok (),
      announceEvt := AnnounceEvent.announce "moq-test/interop",
      trackEvt := TrackEvent.waitElapsed } "moq-test/interop"
    rfl rfl rfl).2.1 rfl

end MoqInterop

namespace MoqInterop

/-- `escapeChars` replaces each double quote by backslash-quote and maps
every other character to itself. -/
theorem escapeChars_flatMap (l : List Char) :
    escapeChars l = l.flatMap (fun c => if c = '"' then ['\\', '"'] else [c]) := by
  induction l with
  | nil => rfl
  | cons c cs ih => by_cases h : c = '"' <;> simp [escapeChars, h, ih]

/-- C10: for every failure message `m`, the failure diagnostics block is
`  ---` / `  duration_ms: <ms>` / `  message: "<e>"` / `  ...` where `e`
is `m` with every double-quote replaced by backslash-double-quote and
every other character (backslashes and newlines included) left unchanged;
in particular a newline in `m` survives into the emitted text. -/
theorem C10_message_escaping (ms : Nat) (m : String) :
    (print_failure_diagnostics ms m).map Line.render =
      ["  ---",
       "  duration_ms: " ++ toString ms,
       "  message: \"" ++ escapeMessage m ++ "\"",
       "  ..."] ∧
    (escapeMessage m).data =
      m.data.flatMap (fun c => if c = '"' then ['\\', '"'] else [c]) ∧
    ('\n' ∈ m.data → '\n' ∈ (escapeMessage m).data) := by
  refine ⟨?_, escapeChars_flatMap m.data, fun h => ?_⟩
  · simp only [print_failure_diagnostics, List.map_cons, List.map_nil, Line.render]
    rw [← String.append_assoc "  " "duration_ms: " (toString ms),
        ← String.append_assoc "  " ("message: \"" ++ escapeMessage m) "\"",
        ← String.append_assoc "  " "message: \"" (escapeMessage m)]
    rfl
  · have hd : (escapeMessage m).data = escapeChars m.data := rfl
    rw [hd, escapeChars_flatMap m.data]
    exact List.mem_flatMap.mpr ⟨'\n', h, by simp⟩

/-- Witness for C10 at the concrete message `a"b` (one inner quote). -/
theorem C10_message_escaping_witness :
    (print_failure_diagnostics 7 "a\"b").map Line.render =
      ["  ---",
       "  duration_ms: " ++ toString 7,
       "  message: \"" ++ escapeMessage "a\"b" ++ "\"",
       "  ..."] ∧
    escapeMessage "a\"b" = "a\\\"b" :=
  ⟨(C10_message_escaping 7 "a\"b").1, by decide⟩

end MoqInterop
